import Mathlib

/-!
Shallow embedding of the topic-based publish/subscribe broker in
`src/server.py`, covering the message validator (`validate_kom`), the
message router and registry operations (`process_message`) and the
disconnection cleanup (`handle_disconnection`).

Modelling conventions:
* Decoded JSON values are the inductive `JVal`; JSON numbers are modelled
  as integers (no claim depends on fractional numerics).
* A Python client socket is an abstract connection handle `Conn := Nat`;
  Python compares sockets by identity, which handle equality models.
* The Python dict `self.topics` is an insertion-ordered association list
  `Registry`; `dict` membership, indexing, insertion and deletion are
  `dictContains`, `dictGet`, `dictSet`, `dictDel`.
* A raised Python exception is modelled by `Option.none`: dict membership
  tests and indexing raise `TypeError` on unhashable keys and `KeyError`
  on missing keys, so those operations thread through `Option`.
* Each registry operation returns the new registry together with the list
  of `(target connection, message)` pairs placed on the outgoing queue.
-/

inductive JVal where
  | jnull
  | jbool (b : Bool)
  | jnum (n : Int)
  | jstr (s : String)
  | jarr (elems : List JVal)
  | jobj (fields : List (String × JVal))

mutual

/-- Python `==` on decoded JSON values.  `True == 1` and `False == 0` hold in
Python, hence the boolean/number promotion.  The broker only ever compares
hashable values and string constants, so the (order-sensitive) object clause
is never exercised; Python would compare dicts ignoring field order. -/
def pyEq : JVal → JVal → Bool
  | .jnull, .jnull => true
  | .jbool a, .jbool b => a == b
  | .jbool a, .jnum n => (if a then (1 : Int) else 0) == n
  | .jnum n, .jbool b => n == (if b then (1 : Int) else 0)
  | .jnum a, .jnum b => a == b
  | .jstr a, .jstr b => a == b
  | .jarr xs, .jarr ys => pyEqList xs ys
  | .jobj xs, .jobj ys => pyEqObj xs ys
  | _, _ => false

def pyEqList : List JVal → List JVal → Bool
  | [], [] => true
  | x :: xs, y :: ys => pyEq x y && pyEqList xs ys
  | _, _ => false

def pyEqObj : List (String × JVal) → List (String × JVal) → Bool
  | [], [] => true
  | x :: xs, y :: ys => x.1 == y.1 && pyEq x.2 y.2 && pyEqObj xs ys
  | _, _ => false

end

/-- Whether a decoded JSON value is hashable in Python (usable as a dict
key): scalars are, lists and dicts are not. -/
def hashable : JVal → Bool
  | .jarr _ => false
  | .jobj _ => false
  | _ => true

/-- The single-quote character, written via its code point. -/
def sglq : String := String.singleton (Char.ofNat 39)

/-- The double-quote character, written via its code point. -/
def dblq : String := String.singleton (Char.ofNat 34)

mutual

/-- Python `str()` / `repr()` of a decoded JSON value, as interpolated by
the broker's f-strings.  Only hashable values ever reach an f-string in
`process_message`; the escaping done by `repr` inside strings is not
modelled. -/
def pyStr : JVal → String
  | .jstr s => s
  | v => pyRepr v

def pyRepr : JVal → String
  | .jnull => "None"
  | .jbool true => "True"
  | .jbool false => "False"
  | .jnum n => toString n
  | .jstr s => sglq ++ s ++ sglq
  | .jarr xs => "[" ++ pyReprList xs ++ "]"
  | .jobj xs => "\x7b" ++ pyReprObj xs ++ "\x7d"

def pyReprList : List JVal → String
  | [] => ""
  | [x] => pyRepr x
  | x :: xs => pyRepr x ++ ", " ++ pyReprList xs

def pyReprObj : List (String × JVal) → String
  | [] => ""
  | [x] => sglq ++ x.1 ++ sglq ++ ": " ++ pyRepr x.2
  | x :: xs => sglq ++ x.1 ++ sglq ++ ": " ++ pyRepr x.2 ++ ", " ++ pyReprObj xs

end

/-- `json.dumps` with its default separators; escaping inside strings is
modelled for the backslash, the double quote and common control
characters. -/
def jsonEscapeChar (c : Char) : String :=
  if c = Char.ofNat 34 then String.mk [Char.ofNat 92, Char.ofNat 34]
  else if c = Char.ofNat 92 then String.mk [Char.ofNat 92, Char.ofNat 92]
  else if c = Char.ofNat 10 then String.mk [Char.ofNat 92, Char.ofNat 110]
  else if c = Char.ofNat 13 then String.mk [Char.ofNat 92, Char.ofNat 114]
  else if c = Char.ofNat 9 then String.mk [Char.ofNat 92, Char.ofNat 116]
  else String.singleton c

def jsonQuote (s : String) : String :=
  dblq ++ String.join (s.data.map jsonEscapeChar) ++ dblq

mutual

def dumps : JVal → String
  | .jnull => "null"
  | .jbool true => "true"
  | .jbool false => "false"
  | .jnum n => toString n
  | .jstr s => jsonQuote s
  | .jarr xs => "[" ++ dumpsList xs ++ "]"
  | .jobj xs => "\x7b" ++ dumpsObj xs ++ "\x7d"

def dumpsList : List JVal → String
  | [] => ""
  | [x] => dumps x
  | x :: xs => dumps x ++ ", " ++ dumpsList xs

def dumpsObj : List (String × JVal) → String
  | [] => ""
  | [x] => jsonQuote x.1 ++ ": " ++ dumps x.2
  | x :: xs => jsonQuote x.1 ++ ": " ++ dumps x.2 ++ ", " ++ dumpsObj xs

end

/-- A decoded JSON object, as handed to `process_message` and
`validate_kom`: an insertion-ordered association list with string keys. -/
abbrev PyDict := List (String × JVal)

/-- `d.get(k)`: `none` when the key is absent. -/
def pyDictGet (d : PyDict) (k : String) : Option JVal :=
  (d.find? (fun kv => kv.1 == k)).map (fun kv => kv.2)

/-- `d.get(k)` as the Python value it evaluates to: a missing key yields
`None`, i.e. `JVal.jnull`. -/
def pyGetD (d : PyDict) (k : String) : JVal :=
  (pyDictGet d k).getD .jnull

/-- `k in d` for a string-keyed dict. -/
def pyDictContains (d : PyDict) (k : String) : Bool :=
  d.any (fun kv => kv.1 == k)

/-- `d[k] = v`: replaces the value in place when the key is present,
appends the pair otherwise (Python dicts keep insertion order). -/
def pyDictSet : PyDict → String → JVal → PyDict
  | [], k, v => [(k, v)]
  | kv :: rest, k, v =>
    if kv.1 == k then (kv.1, v) :: rest else kv :: pyDictSet rest k v

/-- An accepted client socket, by identity. -/
abbrev Conn := Nat

/-- The value of `self.topics[t]`: the dict
`\x7b"producer": socket, "producer_id": id, "subscribers": [...]\x7d`
built at registration time. -/
structure TopicInfo where
  producer : Conn
  producer_id : JVal
  subscribers : List Conn

/-- The broker's `self.topics` dict: topic key → topic info, in insertion
order.  Keys are compared with Python `==` (`pyEq`). -/
abbrev Registry := List (JVal × TopicInfo)

/-- `k in topics` (assuming `k` hashable; the raise on unhashable keys is
handled at each use site). -/
def dictContains (m : Registry) (k : JVal) : Bool :=
  m.any (fun kv => pyEq kv.1 k)

/-- `topics[k]` as a partial lookup: `none` models `KeyError`. -/
def dictGet (m : Registry) (k : JVal) : Option TopicInfo :=
  (m.find? (fun kv => pyEq kv.1 k)).map (fun kv => kv.2)

/-- `topics[k] = v`. -/
def dictSet : Registry → JVal → TopicInfo → Registry
  | [], k, v => [(k, v)]
  | kv :: rest, k, v =>
    if pyEq kv.1 k then (kv.1, v) :: rest else kv :: dictSet rest k v

/-- `del topics[k]`. -/
def dictDel (m : Registry) (k : JVal) : Registry :=
  m.filter (fun kv => !(pyEq kv.1 k))

/-- In-place mutation of the info stored under `k`
(`topics[k]["subscribers"].append(...)` and friends). -/
def dictModify : Registry → JVal → (TopicInfo → TopicInfo) → Registry
  | [], _, _ => []
  | kv :: rest, k, f =>
    if pyEq kv.1 k then (kv.1, f kv.2) :: rest else kv :: dictModify rest k f

/-- Python `list.remove`: drops the first occurrence (the source always
guards the call with a membership test, so the missing-element raise is
unreachable). -/
def listRemove : List Conn → Conn → List Conn
  | [], _ => []
  | x :: xs, c => if x == c then xs else x :: listRemove xs c

/-- Reply text for the `Topic X doesn't exist.` message. -/
def noSuchTopicMsg (t : JVal) : String :=
  "Topic " ++ pyStr t ++ " doesn" ++ sglq ++ "t exist."

/-- The `register` / `producer` branch of `process_message`
(server.py lines 213-222). -/
def register_producer (topics : Registry) (topic : JVal) (client_id : JVal)
    (client_socket : Conn) : Option (Registry × List (Conn × String)) :=
  if hashable topic then
    if dictContains topics topic then
      match dictGet topics topic with
      | some info =>
        if info.producer == client_socket then
          some (topics,
            [(client_socket,
              "You already are the producer of topic " ++ pyStr topic ++ ".")])
        else
          some (topics,
            [(client_socket, "Topic " ++ pyStr topic ++ " already exists.")])
      | none => none
    else
      some (dictSet topics topic ⟨client_socket, client_id, []⟩,
        [(client_socket, "New topic registered: " ++ pyStr topic)])
  else none

/-- The `register` / `subscriber` branch of `process_message`
(server.py lines 224-233). -/
def register_subscriber (topics : Registry) (topic : JVal)
    (client_socket : Conn) : Option (Registry × List (Conn × String)) :=
  if hashable topic then
    if dictContains topics topic then
      match dictGet topics topic with
      | some info =>
        if info.subscribers.contains client_socket then
          some (topics,
            [(client_socket,
              "You already are a subscriber of topic " ++ pyStr topic ++ ".")])
        else
          some (dictModify topics topic
              (fun i => { i with subscribers := i.subscribers ++ [client_socket] }),
            [(client_socket, "Subscribed to topic: " ++ pyStr topic)])
      | none => none
    else
      some (topics, [(client_socket, noSuchTopicMsg topic)])
  else none

/-- The `withdraw` / `subscriber` branch of `process_message`
(server.py lines 235-244). -/
def withdraw_subscriber (topics : Registry) (topic : JVal)
    (client_socket : Conn) : Option (Registry × List (Conn × String)) :=
  if hashable topic then
    if dictContains topics topic then
      match dictGet topics topic with
      | some info =>
        if info.subscribers.contains client_socket then
          some (dictModify topics topic
              (fun i => { i with subscribers := listRemove i.subscribers client_socket }),
            [(client_socket,
              "Subscription of topic " ++ pyStr topic ++ " has been withdrawn.")])
        else
          some (topics,
            [(client_socket,
              "You are not a subscriber of topic " ++ pyStr topic ++ ".")])
      | none => none
    else
      some (topics, [(client_socket, noSuchTopicMsg topic)])
  else none

/-- The `withdraw` / `producer` branch of `process_message`
(server.py lines 246-255). -/
def withdraw_producer (topics : Registry) (topic : JVal)
    (client_socket : Conn) : Option (Registry × List (Conn × String)) :=
  if hashable topic then
    if dictContains topics topic then
      match dictGet topics topic with
      | some info =>
        if info.producer == client_socket then
          some (dictDel topics topic,
            [(client_socket, "Topic " ++ pyStr topic ++ " has been withdrawn.")])
        else
          some (topics,
            [(client_socket,
              "You are not a producer of topic " ++ pyStr topic ++ ".")])
      | none => none
    else
      some (topics, [(client_socket, noSuchTopicMsg topic)])
  else none

/-- The `message` branch of `process_message` (server.py lines 257-271):
fans the payload out to every current subscriber when the sender is the
producer. -/
def publish (topics : Registry) (topic : JVal) (payload : JVal)
    (client_socket : Conn) : Option (Registry × List (Conn × String)) :=
  if hashable topic then
    if dictContains topics topic then
      match dictGet topics topic with
      | some info =>
        if info.producer == client_socket then
          some (topics, info.subscribers.map (fun sub =>
            (sub, dumps (.jobj [("topic", topic), ("payload", payload)]))))
        else
          some (topics,
            [(client_socket,
              "You are not a producer of topic " ++ pyStr topic ++ ".")])
      | none => none
    else
      some (topics, [(client_socket, noSuchTopicMsg topic)])
  else none

/-- The list comprehension of the `status` branch (server.py line 275). -/
def snapshot_status (topics : Registry) : List JVal :=
  topics.map (fun kv => .jobj [("topic", kv.1), ("id", kv.2.producer_id)])

/-- The reply of the `status` branch (server.py lines 273-277): the request
dict with its `payload` replaced by the topic snapshot, re-encoded. -/
def status_reply (topics : Registry) (data : PyDict) : String :=
  dumps (.jobj (pyDictSet data "payload" (.jarr (snapshot_status topics))))

/-- `Server.process_message` (server.py lines 205-279).  The result is
`none` when the Python code would raise, and otherwise the new registry
paired with the messages placed on the outgoing queue. -/
def process_message (data : PyDict) (client_socket : Conn)
    (topics : Registry) : Option (Registry × List (Conn × String)) :=
  let message_type := pyGetD data "type"
  let topic := pyGetD data "topic"
  let client_id := pyGetD data "id"
  if pyEq message_type (.jstr "register") && pyEq (pyGetD data "mode") (.jstr "producer") then
    register_producer topics topic client_id client_socket
  else if pyEq message_type (.jstr "register") && pyEq (pyGetD data "mode") (.jstr "subscriber") then
    register_subscriber topics topic client_socket
  else if pyEq message_type (.jstr "withdraw") && pyEq (pyGetD data "mode") (.jstr "subscriber") then
    withdraw_subscriber topics topic client_socket
  else if pyEq message_type (.jstr "withdraw") && pyEq (pyGetD data "mode") (.jstr "producer") then
    withdraw_producer topics topic client_socket
  else if pyEq message_type (.jstr "message") then
    publish topics topic (pyGetD data "payload") client_socket
  else if pyEq message_type (.jstr "status") then
    some (topics, [(client_socket, status_reply topics data)])
  else
    some (topics, [(client_socket, "Unknown message type.")])

/-- The required keys of `validate_kom` (server.py line 106). -/
def requiredKeys : List String :=
  ["type", "id", "topic", "mode", "timestamp", "payload"]

/-- Python `v in [s1, s2, ...]` for a list of string literals. -/
def isIn (v : JVal) (ss : List String) : Bool :=
  ss.any (fun s => pyEq v (.jstr s))

/-- `Server.validate_kom` (server.py lines 101-122).  The behaviour of
`datetime.datetime.fromisoformat` (library code outside the repository) is
the parameter `isoOk`: `isoOk ts = false` models the call raising, which
the surrounding `try` turns into a `False` return. -/
def validate_kom (isoOk : JVal → Bool) (data : PyDict) : Bool :=
  if requiredKeys.all (fun k => pyDictContains data k) then
    match pyDictGet data "timestamp" with
    | none => false
    | some ts =>
      if !(isoOk ts) then false
      else
        match pyDictGet data "type" with
        | none => false
        | some ty =>
          if !(isIn ty ["register", "withdraw", "message", "status"]) then false
          else
            match pyDictGet data "mode" with
            | none => false
            | some md =>
              if !(isIn md ["producer", "subscriber"]) && !(isIn ty ["status"]) then
                false
              else true
  else false

/-- Removal of one connection from one topic's subscriber list, as done by
the loop body of `handle_disconnection` (server.py lines 189-191). -/
def removeSub (client_socket : Conn) (info : TopicInfo) : TopicInfo :=
  if info.subscribers.contains client_socket then
    { info with subscribers := listRemove info.subscribers client_socket }
  else info

/-- `Server.handle_disconnection` (server.py lines 178-195): one pass over
the topics collecting those produced by the dead connection and dropping
its subscriptions, then deletion of the collected topics. -/
def handle_disconnection (topics : Registry) (client_socket : Conn) : Registry :=
  let topics_to_remove :=
    (topics.filter (fun kv => kv.2.producer == client_socket)).map (fun kv => kv.1)
  let afterSubs := topics.map (fun kv => (kv.1, removeSub client_socket kv.2))
  topics_to_remove.foldl dictDel afterSubs

/-- Driver for the at-most-one-`created` property: folds a sequence of
`register_producer` calls for one topic name over the registry, counting
the calls that take the topic-creation branch. -/
def run_register_producers (topic : JVal) :
    Registry → List (JVal × Conn) → Option (Registry × Nat)
  | topics, [] => some (topics, 0)
  | topics, (cid, conn) :: rest =>
    let created : Nat := if dictContains topics topic then 0 else 1
    match register_producer topics topic cid conn with
    | none => none
    | some (topics2, _) =>
      match run_register_producers topic topics2 rest with
      | none => none
      | some (fin, n) => some (fin, created + n)

/-- No-duplicates check for a subscriber list. -/
def nodupB : List Conn → Bool
  | [] => true
  | c :: cs => !(cs.contains c) && nodupB cs

/-- Pairwise distinctness (under Python `==`) of the key list of a
registry. -/
def keysUnique : List JVal → Bool
  | [] => true
  | k :: ks => ks.all (fun k2 => !(pyEq k2 k)) && keysUnique ks

/-- Well-formedness of the broker's topic dict, as maintained by the
source: every key is hashable (a Python dict cannot hold others), keys are
pairwise distinct (a dict maps each key once, so each topic has at most
one producer entry), and no subscriber list holds a connection twice. -/
def registryWF (st : Registry) : Bool :=
  (st.map (fun kv => kv.1)).all hashable &&
    keysUnique (st.map (fun kv => kv.1)) &&
    st.all (fun kv => nodupB kv.2.subscribers)

lemma pyEq_refl_hashable (v : JVal) (h : hashable v = true) : pyEq v v = true := by
  cases v <;> simp_all [pyEq, hashable]

lemma pyEq_symm_hashable (a b : JVal) (h : hashable a = true) : pyEq a b = pyEq b a := by
  cases a <;> cases b <;> simp_all [pyEq, hashable] <;> exact eq_comm

lemma dictContains_cons (kv : JVal × TopicInfo) (m : Registry) (k : JVal) :
    dictContains (kv :: m) k = (pyEq kv.1 k || dictContains m k) := by
  simp [dictContains, List.any_cons]

lemma pyEq_jstr_right (v : JVal) (s : String) (h : pyEq v (.jstr s) = true) :
    v = .jstr s := by
  cases v <;> simp_all [pyEq]

lemma dictContains_eq_isSome (m : Registry) (k : JVal) :
    dictContains m k = (dictGet m k).isSome := by
  induction m with
  | nil => rfl
  | cons kv rest ih =>
    cases h : pyEq kv.1 k
    · simpa [dictContains, dictGet, List.find?_cons_of_neg, h] using ih
    · simp [dictContains, dictGet, List.find?_cons_of_pos, h]

lemma dictContains_of_get (m : Registry) (k : JVal) (info : TopicInfo)
    (h : dictGet m k = some info) : dictContains m k = true := by
  rw [dictContains_eq_isSome, h]
  rfl

lemma dictGet_eq_none_of_not_contains (m : Registry) (k : JVal)
    (h : dictContains m k = false) : dictGet m k = none := by
  rw [dictContains_eq_isSome] at h
  exact Option.not_isSome_iff_eq_none.mp (by simp [h])

lemma dictGet_isSome_of_contains (m : Registry) (k : JVal)
    (h : dictContains m k = true) : (dictGet m k).isSome = true := by
  rw [dictContains_eq_isSome] at h
  exact h

lemma dictSet_of_not_contains (m : Registry) (k : JVal) (v : TopicInfo)
    (h : dictContains m k = false) : dictSet m k v = m ++ [(k, v)] := by
  induction m with
  | nil => rfl
  | cons kv rest ih =>
    rw [dictContains_cons] at h
    rcases Bool.or_eq_false_iff.mp h with ⟨h1, h2⟩
    simp [dictSet, h1, ih h2]

lemma dictContains_dictSet_self (m : Registry) (k : JVal) (v : TopicInfo)
    (h : hashable k = true) : dictContains (dictSet m k v) k = true := by
  induction m with
  | nil => simp [dictSet, dictContains, pyEq_refl_hashable k h]
  | cons kv rest ih =>
    cases hk : pyEq kv.1 k
    · simp [dictSet, hk, dictContains_cons, ih]
    · simp [dictSet, hk, dictContains_cons]

lemma dictContains_dictDel_self (m : Registry) (k : JVal) :
    dictContains (dictDel m k) k = false := by
  induction m with
  | nil => rfl
  | cons kv rest ih =>
    cases hk : pyEq kv.1 k
    · simpa [dictDel, List.filter_cons, hk, dictContains_cons] using ih
    · simpa [dictDel, List.filter_cons, hk, dictContains_cons] using ih

lemma dictGet_cons_pos (kv : JVal × TopicInfo) (m : Registry) (k : JVal)
    (h : pyEq kv.1 k = true) : dictGet (kv :: m) k = some kv.2 := by
  simp [dictGet, List.find?_cons_of_pos, h]

lemma dictGet_cons_neg (kv : JVal × TopicInfo) (m : Registry) (k : JVal)
    (h : pyEq kv.1 k = false) : dictGet (kv :: m) k = dictGet m k := by
  simp [dictGet, List.find?_cons_of_neg, h]

lemma nodupB_iff_nodup (xs : List Conn) : nodupB xs = true ↔ xs.Nodup := by
  induction xs with
  | nil => simp [nodupB]
  | cons c cs ih => simp [nodupB, List.nodup_cons, ih, List.elem_iff]

lemma mem_of_mem_listRemove (xs : List Conn) (c x : Conn)
    (h : x ∈ listRemove xs c) : x ∈ xs := by
  induction xs with
  | nil => simp [listRemove] at h
  | cons y ys ih =>
    by_cases hy : (y == c) = true
    · simp only [listRemove, hy, if_true] at h
      exact List.mem_cons_of_mem y h
    · simp only [listRemove, hy, if_false, Bool.false_eq_true] at h
      rcases List.mem_cons.mp h with h | h
      · exact h ▸ List.mem_cons_self y ys
      · exact List.mem_cons_of_mem y (ih h)

lemma nodup_listRemove (xs : List Conn) (c : Conn) (h : xs.Nodup) :
    (listRemove xs c).Nodup := by
  induction xs with
  | nil => simp [listRemove]
  | cons y ys ih =>
    rcases List.nodup_cons.mp h with ⟨hy, hys⟩
    by_cases hc : (y == c) = true
    · simpa [listRemove, hc] using hys
    · simp only [listRemove, hc, if_false, Bool.false_eq_true]
      exact List.nodup_cons.mpr ⟨fun hm => hy (mem_of_mem_listRemove ys c y hm), ih hys⟩

lemma not_mem_listRemove_self (xs : List Conn) (c : Conn) (h : xs.Nodup) :
    c ∉ listRemove xs c := by
  induction xs with
  | nil => simp [listRemove]
  | cons y ys ih =>
    rcases List.nodup_cons.mp h with ⟨hy, hys⟩
    by_cases hc : (y == c) = true
    · have hyc : y = c := by simpa using hc
      simp only [listRemove, hc, if_true]
      exact fun hm => hy (hyc ▸ hm)
    · simp only [listRemove, hc, if_false, Bool.false_eq_true, List.mem_cons]
      rintro (h | h)
      · exact hc (by simp [h])
      · exact ih hys h

lemma keysUnique_iff_pairwise (ks : List JVal) :
    keysUnique ks = true ↔ ks.Pairwise (fun a b => pyEq b a = false) := by
  induction ks with
  | nil => simp [keysUnique]
  | cons k ks ih => simp [keysUnique, List.pairwise_cons, ih, List.all_eq_true]

lemma keysUnique_sublist {xs ys : List JVal} (h : xs.Sublist ys)
    (hy : keysUnique ys = true) : keysUnique xs = true :=
  (keysUnique_iff_pairwise xs).mpr (((keysUnique_iff_pairwise ys).mp hy).sublist h)

lemma all_sublist {α : Type} (p : α → Bool) {xs ys : List α} (h : xs.Sublist ys)
    (hy : ys.all p = true) : xs.all p = true := by
  rw [List.all_eq_true] at hy ⊢
  exact fun x hx => hy x (h.subset hx)

lemma foldl_dictDel_eq_filter (ts : List JVal) (m : Registry) :
    ts.foldl dictDel m = m.filter (fun kv => ts.all (fun t => !(pyEq kv.1 t))) := by
  induction ts generalizing m with
  | nil => simp
  | cons t ts ih =>
    rw [List.foldl_cons, ih]
    show (dictDel m t).filter _ = _
    rw [dictDel, List.filter_filter]
    apply List.filter_congr
    intro kv _
    simp [List.all_cons, Bool.and_comm]

lemma dictModify_map_fst (m : Registry) (k : JVal) (f : TopicInfo → TopicInfo) :
    (dictModify m k f).map (fun kv => kv.1) = m.map (fun kv => kv.1) := by
  induction m with
  | nil => rfl
  | cons kv rest ih =>
    by_cases h : pyEq kv.1 k = true
    · simp [dictModify, h]
    · simp only [dictModify, h, if_false, Bool.false_eq_true, List.map_cons, ih]

lemma dictModify_all_snd (q : TopicInfo → Bool) (m : Registry) (k : JVal)
    (f : TopicInfo → TopicInfo) (hall : m.all (fun kv => q kv.2) = true)
    (hf : ∀ info, dictGet m k = some info → q (f info) = true) :
    (dictModify m k f).all (fun kv => q kv.2) = true := by
  induction m with
  | nil => rfl
  | cons kv rest ih =>
    rw [List.all_cons, Bool.and_eq_true] at hall
    by_cases h : pyEq kv.1 k = true
    · rw [dictModify, if_pos h, List.all_cons, Bool.and_eq_true]
      exact ⟨hf kv.2 (dictGet_cons_pos kv rest k h), hall.2⟩
    · rw [dictModify, if_neg h, List.all_cons, Bool.and_eq_true]
      refine ⟨hall.1, ih hall.2 fun info hi => hf info ?_⟩
      rw [dictGet_cons_neg kv rest k (by simpa using h)]
      exact hi

lemma registryWF_iff (st : Registry) : registryWF st = true ↔
    ((st.map (fun kv => kv.1)).all hashable = true ∧
      keysUnique (st.map (fun kv => kv.1)) = true ∧
      st.all (fun kv => nodupB kv.2.subscribers) = true) := by
  simp [registryWF, Bool.and_eq_true, and_assoc]

lemma register_producer_created (st : Registry) (t cid : JVal) (conn : Conn)
    (hh : hashable t = true) (hc : dictContains st t = false) :
    register_producer st t cid conn =
      some (dictSet st t ⟨conn, cid, []⟩,
        [(conn, "New topic registered: " ++ pyStr t)]) := by
  rw [register_producer, if_pos hh, if_neg (by simp [hc])]

lemma register_producer_already (st : Registry) (t cid : JVal) (conn : Conn)
    (info : TopicInfo) (hh : hashable t = true) (hg : dictGet st t = some info)
    (hp : info.producer = conn) :
    register_producer st t cid conn =
      some (st,
        [(conn, "You already are the producer of topic " ++ pyStr t ++ ".")]) := by
  rw [register_producer, if_pos hh, if_pos (dictContains_of_get st t info hg), hg]
  simp [hp]

lemma register_producer_taken (st : Registry) (t cid : JVal) (conn : Conn)
    (info : TopicInfo) (hh : hashable t = true) (hg : dictGet st t = some info)
    (hp : info.producer ≠ conn) :
    register_producer st t cid conn =
      some (st, [(conn, "Topic " ++ pyStr t ++ " already exists.")]) := by
  rw [register_producer, if_pos hh, if_pos (dictContains_of_get st t info hg), hg]
  simp [hp]

lemma register_subscriber_already (st : Registry) (t : JVal) (conn : Conn)
    (info : TopicInfo) (hh : hashable t = true) (hg : dictGet st t = some info)
    (hm : conn ∈ info.subscribers) :
    register_subscriber st t conn =
      some (st,
        [(conn, "You already are a subscriber of topic " ++ pyStr t ++ ".")]) := by
  rw [register_subscriber, if_pos hh, if_pos (dictContains_of_get st t info hg), hg]
  simp [List.elem_iff, hm]

lemma register_subscriber_subscribed (st : Registry) (t : JVal) (conn : Conn)
    (info : TopicInfo) (hh : hashable t = true) (hg : dictGet st t = some info)
    (hm : conn ∉ info.subscribers) :
    register_subscriber st t conn =
      some (dictModify st t
          (fun i => { i with subscribers := i.subscribers ++ [conn] }),
        [(conn, "Subscribed to topic: " ++ pyStr t)]) := by
  rw [register_subscriber, if_pos hh, if_pos (dictContains_of_get st t info hg), hg]
  simp [List.elem_iff, hm]

lemma register_subscriber_nosuch (st : Registry) (t : JVal) (conn : Conn)
    (hh : hashable t = true) (hc : dictContains st t = false) :
    register_subscriber st t conn = some (st, [(conn, noSuchTopicMsg t)]) := by
  rw [register_subscriber, if_pos hh, if_neg (by simp [hc])]

lemma withdraw_subscriber_removed (st : Registry) (t : JVal) (conn : Conn)
    (info : TopicInfo) (hh : hashable t = true) (hg : dictGet st t = some info)
    (hm : conn ∈ info.subscribers) :
    withdraw_subscriber st t conn =
      some (dictModify st t
          (fun i => { i with subscribers := listRemove i.subscribers conn }),
        [(conn, "Subscription of topic " ++ pyStr t ++ " has been withdrawn.")]) := by
  rw [withdraw_subscriber, if_pos hh, if_pos (dictContains_of_get st t info hg), hg]
  simp [List.elem_iff, hm]

lemma withdraw_subscriber_notsub (st : Registry) (t : JVal) (conn : Conn)
    (info : TopicInfo) (hh : hashable t = true) (hg : dictGet st t = some info)
    (hm : conn ∉ info.subscribers) :
    withdraw_subscriber st t conn =
      some (st,
        [(conn, "You are not a subscriber of topic " ++ pyStr t ++ ".")]) := by
  rw [withdraw_subscriber, if_pos hh, if_pos (dictContains_of_get st t info hg), hg]
  simp [List.elem_iff, hm]

lemma withdraw_subscriber_nosuch (st : Registry) (t : JVal) (conn : Conn)
    (hh : hashable t = true) (hc : dictContains st t = false) :
    withdraw_subscriber st t conn = some (st, [(conn, noSuchTopicMsg t)]) := by
  rw [withdraw_subscriber, if_pos hh, if_neg (by simp [hc])]

lemma withdraw_producer_removed (st : Registry) (t : JVal) (conn : Conn)
    (info : TopicInfo) (hh : hashable t = true) (hg : dictGet st t = some info)
    (hp : info.producer = conn) :
    withdraw_producer st t conn =
      some (dictDel st t,
        [(conn, "Topic " ++ pyStr t ++ " has been withdrawn.")]) := by
  rw [withdraw_producer, if_pos hh, if_pos (dictContains_of_get st t info hg), hg]
  simp [hp]

lemma withdraw_producer_notprod (st : Registry) (t : JVal) (conn : Conn)
    (info : TopicInfo) (hh : hashable t = true) (hg : dictGet st t = some info)
    (hp : info.producer ≠ conn) :
    withdraw_producer st t conn =
      some (st,
        [(conn, "You are not a producer of topic " ++ pyStr t ++ ".")]) := by
  rw [withdraw_producer, if_pos hh, if_pos (dictContains_of_get st t info hg), hg]
  simp [hp]

lemma withdraw_producer_nosuch (st : Registry) (t : JVal) (conn : Conn)
    (hh : hashable t = true) (hc : dictContains st t = false) :
    withdraw_producer st t conn = some (st, [(conn, noSuchTopicMsg t)]) := by
  rw [withdraw_producer, if_pos hh, if_neg (by simp [hc])]

lemma publish_delivered (st : Registry) (t payload : JVal) (conn : Conn)
    (info : TopicInfo) (hh : hashable t = true) (hg : dictGet st t = some info)
    (hp : info.producer = conn) :
    publish st t payload conn =
      some (st, info.subscribers.map (fun sub =>
        (sub, dumps (.jobj [("topic", t), ("payload", payload)])))) := by
  rw [publish, if_pos hh, if_pos (dictContains_of_get st t info hg), hg]
  simp [hp]

lemma publish_notprod (st : Registry) (t payload : JVal) (conn : Conn)
    (info : TopicInfo) (hh : hashable t = true) (hg : dictGet st t = some info)
    (hp : info.producer ≠ conn) :
    publish st t payload conn =
      some (st,
        [(conn, "You are not a producer of topic " ++ pyStr t ++ ".")]) := by
  rw [publish, if_pos hh, if_pos (dictContains_of_get st t info hg), hg]
  simp [hp]

lemma publish_nosuch (st : Registry) (t payload : JVal) (conn : Conn)
    (hh : hashable t = true) (hc : dictContains st t = false) :
    publish st t payload conn = some (st, [(conn, noSuchTopicMsg t)]) := by
  rw [publish, if_pos hh, if_neg (by simp [hc])]

lemma process_message_register_producer (data : PyDict) (conn : Conn) (st : Registry)
    (h1 : pyEq (pyGetD data "type") (.jstr "register") = true)
    (h2 : pyEq (pyGetD data "mode") (.jstr "producer") = true) :
    process_message data conn st =
      register_producer st (pyGetD data "topic") (pyGetD data "id") conn := by
  rw [process_message]
  simp [h1, h2]

lemma process_message_register_subscriber (data : PyDict) (conn : Conn) (st : Registry)
    (h1 : pyEq (pyGetD data "type") (.jstr "register") = true)
    (h2 : pyEq (pyGetD data "mode") (.jstr "subscriber") = true) :
    process_message data conn st =
      register_subscriber st (pyGetD data "topic") conn := by
  have hmd := pyEq_jstr_right _ _ h2
  rw [process_message]
  simp [h1, h2, hmd, show pyEq (JVal.jstr "subscriber") (JVal.jstr "producer") = false by decide,
    show pyEq (JVal.jstr "subscriber") (JVal.jstr "subscriber") = true by decide]

lemma process_message_withdraw_subscriber (data : PyDict) (conn : Conn) (st : Registry)
    (h1 : pyEq (pyGetD data "type") (.jstr "withdraw") = true)
    (h2 : pyEq (pyGetD data "mode") (.jstr "subscriber") = true) :
    process_message data conn st =
      withdraw_subscriber st (pyGetD data "topic") conn := by
  have hmt := pyEq_jstr_right _ _ h1
  rw [process_message]
  simp [h1, h2, hmt, show pyEq (JVal.jstr "withdraw") (JVal.jstr "register") = false by decide,
    show pyEq (JVal.jstr "withdraw") (JVal.jstr "withdraw") = true by decide,
    show pyEq (JVal.jstr "subscriber") (JVal.jstr "subscriber") = true by decide]

lemma process_message_withdraw_producer (data : PyDict) (conn : Conn) (st : Registry)
    (h1 : pyEq (pyGetD data "type") (.jstr "withdraw") = true)
    (h2 : pyEq (pyGetD data "mode") (.jstr "producer") = true) :
    process_message data conn st =
      withdraw_producer st (pyGetD data "topic") conn := by
  have hmt := pyEq_jstr_right _ _ h1
  have hmd := pyEq_jstr_right _ _ h2
  rw [process_message]
  simp [hmt, hmd, show pyEq (JVal.jstr "withdraw") (JVal.jstr "register") = false by decide,
    show pyEq (JVal.jstr "producer") (JVal.jstr "subscriber") = false by decide,
    show pyEq (JVal.jstr "producer") (JVal.jstr "producer") = true by decide,
    show pyEq (JVal.jstr "withdraw") (JVal.jstr "withdraw") = true by decide]

lemma process_message_publish (data : PyDict) (conn : Conn) (st : Registry)
    (h1 : pyEq (pyGetD data "type") (.jstr "message") = true) :
    process_message data conn st =
      publish st (pyGetD data "topic") (pyGetD data "payload") conn := by
  have hmt := pyEq_jstr_right _ _ h1
  rw [process_message]
  simp [hmt, show pyEq (JVal.jstr "message") (JVal.jstr "register") = false by decide,
    show pyEq (JVal.jstr "message") (JVal.jstr "withdraw") = false by decide,
    show pyEq (JVal.jstr "message") (JVal.jstr "message") = true by decide]

lemma process_message_status (data : PyDict) (conn : Conn) (st : Registry)
    (h1 : pyEq (pyGetD data "type") (.jstr "status") = true) :
    process_message data conn st = some (st, [(conn, status_reply st data)]) := by
  have hmt := pyEq_jstr_right _ _ h1
  rw [process_message]
  simp [hmt, show pyEq (JVal.jstr "status") (JVal.jstr "register") = false by decide,
    show pyEq (JVal.jstr "status") (JVal.jstr "withdraw") = false by decide,
    show pyEq (JVal.jstr "status") (JVal.jstr "message") = false by decide,
    show pyEq (JVal.jstr "status") (JVal.jstr "status") = true by decide]

lemma process_message_unknown (data : PyDict) (conn : Conn) (st : Registry)
    (h1 : (pyEq (pyGetD data "type") (.jstr "register") &&
      pyEq (pyGetD data "mode") (.jstr "producer")) = false)
    (h2 : (pyEq (pyGetD data "type") (.jstr "register") &&
      pyEq (pyGetD data "mode") (.jstr "subscriber")) = false)
    (h3 : (pyEq (pyGetD data "type") (.jstr "withdraw") &&
      pyEq (pyGetD data "mode") (.jstr "subscriber")) = false)
    (h4 : (pyEq (pyGetD data "type") (.jstr "withdraw") &&
      pyEq (pyGetD data "mode") (.jstr "producer")) = false)
    (h5 : pyEq (pyGetD data "type") (.jstr "message") = false)
    (h6 : pyEq (pyGetD data "type") (.jstr "status") = false) :
    process_message data conn st =
      some (st, [(conn, "Unknown message type.")]) := by
  rw [process_message]
  simp [h1, h2, h3, h4, h5, h6]

lemma register_producer_isSome (st : Registry) (t cid : JVal) (conn : Conn)
    (hh : hashable t = true) : (register_producer st t cid conn).isSome = true := by
  by_cases hc : dictContains st t = true
  · obtain ⟨info, hg⟩ := Option.isSome_iff_exists.mp (dictGet_isSome_of_contains st t hc)
    by_cases hp : info.producer = conn
    · rw [register_producer_already st t cid conn info hh hg hp]; rfl
    · rw [register_producer_taken st t cid conn info hh hg hp]; rfl
  · rw [register_producer_created st t cid conn hh (by simpa using hc)]; rfl

lemma register_subscriber_isSome (st : Registry) (t : JVal) (conn : Conn)
    (hh : hashable t = true) : (register_subscriber st t conn).isSome = true := by
  by_cases hc : dictContains st t = true
  · obtain ⟨info, hg⟩ := Option.isSome_iff_exists.mp (dictGet_isSome_of_contains st t hc)
    by_cases hm : conn ∈ info.subscribers
    · rw [register_subscriber_already st t conn info hh hg hm]; rfl
    · rw [register_subscriber_subscribed st t conn info hh hg hm]; rfl
  · rw [register_subscriber_nosuch st t conn hh (by simpa using hc)]; rfl

lemma withdraw_subscriber_isSome (st : Registry) (t : JVal) (conn : Conn)
    (hh : hashable t = true) : (withdraw_subscriber st t conn).isSome = true := by
  by_cases hc : dictContains st t = true
  · obtain ⟨info, hg⟩ := Option.isSome_iff_exists.mp (dictGet_isSome_of_contains st t hc)
    by_cases hm : conn ∈ info.subscribers
    · rw [withdraw_subscriber_removed st t conn info hh hg hm]; rfl
    · rw [withdraw_subscriber_notsub st t conn info hh hg hm]; rfl
  · rw [withdraw_subscriber_nosuch st t conn hh (by simpa using hc)]; rfl

lemma withdraw_producer_isSome (st : Registry) (t : JVal) (conn : Conn)
    (hh : hashable t = true) : (withdraw_producer st t conn).isSome = true := by
  by_cases hc : dictContains st t = true
  · obtain ⟨info, hg⟩ := Option.isSome_iff_exists.mp (dictGet_isSome_of_contains st t hc)
    by_cases hp : info.producer = conn
    · rw [withdraw_producer_removed st t conn info hh hg hp]; rfl
    · rw [withdraw_producer_notprod st t conn info hh hg hp]; rfl
  · rw [withdraw_producer_nosuch st t conn hh (by simpa using hc)]; rfl

lemma publish_isSome (st : Registry) (t payload : JVal) (conn : Conn)
    (hh : hashable t = true) : (publish st t payload conn).isSome = true := by
  by_cases hc : dictContains st t = true
  · obtain ⟨info, hg⟩ := Option.isSome_iff_exists.mp (dictGet_isSome_of_contains st t hc)
    by_cases hp : info.producer = conn
    · rw [publish_delivered st t payload conn info hh hg hp]; rfl
    · rw [publish_notprod st t payload conn info hh hg hp]; rfl
  · rw [publish_nosuch st t payload conn hh (by simpa using hc)]; rfl

lemma not_contains_forall (st : Registry) (t : JVal) (hc : dictContains st t = false) :
    ∀ kv ∈ st, pyEq kv.1 t = false := by
  intro kv hkv
  by_contra hne
  have : dictContains st t = true :=
    List.any_eq_true.mpr ⟨kv, hkv, by simpa using hne⟩
  simp [this] at hc

lemma registryWF_dictDel (st : Registry) (k : JVal) (h : registryWF st = true) :
    registryWF (dictDel st k) = true := by
  rcases (registryWF_iff st).mp h with ⟨h1, h2, h3⟩
  have hsub : (dictDel st k).Sublist st := List.filter_sublist st
  exact (registryWF_iff _).mpr
    ⟨all_sublist hashable (hsub.map _) h1,
      keysUnique_sublist (hsub.map _) h2,
      all_sublist _ hsub h3⟩

lemma registryWF_foldl_dictDel (ts : List JVal) (m : Registry)
    (h : registryWF m = true) : registryWF (ts.foldl dictDel m) = true := by
  induction ts generalizing m with
  | nil => simpa using h
  | cons t ts ih => exact ih _ (registryWF_dictDel m t h)

lemma nodupB_removeSub (c : Conn) (info : TopicInfo)
    (h : nodupB info.subscribers = true) :
    nodupB (removeSub c info).subscribers = true := by
  rw [removeSub]
  by_cases hm : info.subscribers.contains c = true
  · rw [if_pos hm]
    exact (nodupB_iff_nodup _).mpr (nodup_listRemove _ _ ((nodupB_iff_nodup _).mp h))
  · rw [if_neg hm]
    exact h

lemma registryWF_map_removeSub (st : Registry) (c : Conn)
    (h : registryWF st = true) :
    registryWF (st.map (fun kv => (kv.1, removeSub c kv.2))) = true := by
  rcases (registryWF_iff st).mp h with ⟨h1, h2, h3⟩
  refine (registryWF_iff _).mpr ⟨?_, ?_, ?_⟩
  · rw [List.map_map]
    exact h1
  · rw [List.map_map]
    exact h2
  · rw [List.all_map]
    rw [List.all_eq_true] at h3 ⊢
    intro kv hkv
    exact nodupB_removeSub c kv.2 (h3 kv hkv)

lemma registryWF_handle_disconnection (st : Registry) (c : Conn)
    (h : registryWF st = true) : registryWF (handle_disconnection st c) = true :=
  registryWF_foldl_dictDel _ _ (registryWF_map_removeSub st c h)

lemma nodupB_append_singleton (xs : List Conn) (c : Conn) (hm : c ∉ xs)
    (h : nodupB xs = true) : nodupB (xs ++ [c]) = true := by
  rw [nodupB_iff_nodup] at h ⊢
  rw [List.nodup_append]
  exact ⟨h, List.nodup_singleton c, by simpa [List.disjoint_singleton] using hm⟩

lemma registryWF_append_new (st : Registry) (t : JVal) (v : TopicInfo)
    (hh : hashable t = true) (hc : dictContains st t = false)
    (hs : nodupB v.subscribers = true) (hwf : registryWF st = true) :
    registryWF (st ++ [(t, v)]) = true := by
  rcases (registryWF_iff st).mp hwf with ⟨h1, h2, h3⟩
  refine (registryWF_iff _).mpr ⟨?_, ?_, ?_⟩
  · rw [List.map_append, List.all_append]
    simp [h1, hh]
  · rw [List.map_append, keysUnique_iff_pairwise, List.pairwise_append]
    refine ⟨(keysUnique_iff_pairwise _).mp h2, by simp, ?_⟩
    intro a ha b hb
    have hb2 : b = t := by simpa using hb
    obtain ⟨kv, hkv, rfl⟩ := List.mem_map.mp ha
    rw [hb2, pyEq_symm_hashable t kv.1 hh]
    exact not_contains_forall st t hc kv hkv
  · rw [List.all_append]
    simp [h3, hs]

lemma dictGet_mem (st : Registry) (t : JVal) (info : TopicInfo)
    (hg : dictGet st t = some info) : ∃ k, (k, info) ∈ st := by
  rw [dictGet] at hg
  obtain ⟨kv, hfind, hsnd⟩ := Option.map_eq_some'.mp hg
  refine ⟨kv.1, ?_⟩
  have hmem := List.mem_of_find?_eq_some hfind
  rwa [← hsnd, Prod.mk.eta]

lemma dictGet_nodup (st : Registry) (t : JVal) (info : TopicInfo)
    (hwf : registryWF st = true) (hg : dictGet st t = some info) :
    nodupB info.subscribers = true := by
  rcases (registryWF_iff st).mp hwf with ⟨-, -, h3⟩
  obtain ⟨k, hk⟩ := dictGet_mem st t info hg
  exact (List.all_eq_true.mp h3) (k, info) hk

lemma registryWF_register_producer (st : Registry) (t cid : JVal) (conn : Conn)
    (st2 : Registry) (out : List (Conn × String)) (hwf : registryWF st = true)
    (h : register_producer st t cid conn = some (st2, out)) :
    registryWF st2 = true := by
  by_cases hh : hashable t = true
  · by_cases hc : dictContains st t = true
    · obtain ⟨info, hg⟩ := Option.isSome_iff_exists.mp (dictGet_isSome_of_contains st t hc)
      by_cases hp : info.producer = conn
      · rw [register_producer_already st t cid conn info hh hg hp] at h
        simp only [Option.some.injEq, Prod.mk.injEq] at h
        exact h.1 ▸ hwf
      · rw [register_producer_taken st t cid conn info hh hg hp] at h
        simp only [Option.some.injEq, Prod.mk.injEq] at h
        exact h.1 ▸ hwf
    · have hc2 : dictContains st t = false := by simpa using hc
      rw [register_producer_created st t cid conn hh hc2] at h
      simp only [Option.some.injEq, Prod.mk.injEq] at h
      rw [← h.1, dictSet_of_not_contains st t _ hc2]
      exact registryWF_append_new st t _ hh hc2 rfl hwf
  · rw [register_producer, if_neg hh] at h
    cases h

lemma registryWF_register_subscriber (st : Registry) (t : JVal) (conn : Conn)
    (st2 : Registry) (out : List (Conn × String)) (hwf : registryWF st = true)
    (h : register_subscriber st t conn = some (st2, out)) :
    registryWF st2 = true := by
  by_cases hh : hashable t = true
  · by_cases hc : dictContains st t = true
    · obtain ⟨info, hg⟩ := Option.isSome_iff_exists.mp (dictGet_isSome_of_contains st t hc)
      by_cases hm : conn ∈ info.subscribers
      · rw [register_subscriber_already st t conn info hh hg hm] at h
        simp only [Option.some.injEq, Prod.mk.injEq] at h
        exact h.1 ▸ hwf
      · rw [register_subscriber_subscribed st t conn info hh hg hm] at h
        simp only [Option.some.injEq, Prod.mk.injEq] at h
        rw [← h.1]
        rcases (registryWF_iff st).mp hwf with ⟨h1, h2, h3⟩
        refine (registryWF_iff _).mpr ⟨?_, ?_, ?_⟩
        · rw [dictModify_map_fst]
          exact h1
        · rw [dictModify_map_fst]
          exact h2
        · refine dictModify_all_snd (fun i => nodupB i.subscribers) st t _ h3 ?_
          intro info2 hg2
          rw [hg] at hg2
          injection hg2 with hg2
          rw [← hg2]
          exact nodupB_append_singleton info.subscribers conn hm
            (dictGet_nodup st t info hwf hg)
    · rw [register_subscriber_nosuch st t conn hh (by simpa using hc)] at h
      simp only [Option.some.injEq, Prod.mk.injEq] at h
      exact h.1 ▸ hwf
  · rw [register_subscriber, if_neg hh] at h
    cases h

lemma registryWF_withdraw_subscriber (st : Registry) (t : JVal) (conn : Conn)
    (st2 : Registry) (out : List (Conn × String)) (hwf : registryWF st = true)
    (h : withdraw_subscriber st t conn = some (st2, out)) :
    registryWF st2 = true := by
  by_cases hh : hashable t = true
  · by_cases hc : dictContains st t = true
    · obtain ⟨info, hg⟩ := Option.isSome_iff_exists.mp (dictGet_isSome_of_contains st t hc)
      by_cases hm : conn ∈ info.subscribers
      · rw [withdraw_subscriber_removed st t conn info hh hg hm] at h
        simp only [Option.some.injEq, Prod.mk.injEq] at h
        rw [← h.1]
        rcases (registryWF_iff st).mp hwf with ⟨h1, h2, h3⟩
        refine (registryWF_iff _).mpr ⟨?_, ?_, ?_⟩
        · rw [dictModify_map_fst]
          exact h1
        · rw [dictModify_map_fst]
          exact h2
        · refine dictModify_all_snd (fun i => nodupB i.subscribers) st t _ h3 ?_
          intro info2 hg2
          exact (nodupB_iff_nodup _).mpr (nodup_listRemove _ _
            ((nodupB_iff_nodup _).mp (dictGet_nodup st t info2 hwf hg2)))
      · rw [withdraw_subscriber_notsub st t conn info hh hg hm] at h
        simp only [Option.some.injEq, Prod.mk.injEq] at h
        exact h.1 ▸ hwf
    · rw [withdraw_subscriber_nosuch st t conn hh (by simpa using hc)] at h
      simp only [Option.some.injEq, Prod.mk.injEq] at h
      exact h.1 ▸ hwf
  · rw [withdraw_subscriber, if_neg hh] at h
    cases h

lemma registryWF_withdraw_producer (st : Registry) (t : JVal) (conn : Conn)
    (st2 : Registry) (out : List (Conn × String)) (hwf : registryWF st = true)
    (h : withdraw_producer st t conn = some (st2, out)) :
    registryWF st2 = true := by
  by_cases hh : hashable t = true
  · by_cases hc : dictContains st t = true
    · obtain ⟨info, hg⟩ := Option.isSome_iff_exists.mp (dictGet_isSome_of_contains st t hc)
      by_cases hp : info.producer = conn
      · rw [withdraw_producer_removed st t conn info hh hg hp] at h
        simp only [Option.some.injEq, Prod.mk.injEq] at h
        exact h.1 ▸ registryWF_dictDel st t hwf
      · rw [withdraw_producer_notprod st t conn info hh hg hp] at h
        simp only [Option.some.injEq, Prod.mk.injEq] at h
        exact h.1 ▸ hwf
    · rw [withdraw_producer_nosuch st t conn hh (by simpa using hc)] at h
      simp only [Option.some.injEq, Prod.mk.injEq] at h
      exact h.1 ▸ hwf
  · rw [withdraw_producer, if_neg hh] at h
    cases h

lemma publish_state_eq (st : Registry) (t payload : JVal) (conn : Conn)
    (st2 : Registry) (out : List (Conn × String))
    (h : publish st t payload conn = some (st2, out)) : st2 = st := by
  by_cases hh : hashable t = true
  · by_cases hc : dictContains st t = true
    · obtain ⟨info, hg⟩ := Option.isSome_iff_exists.mp (dictGet_isSome_of_contains st t hc)
      by_cases hp : info.producer = conn
      · rw [publish_delivered st t payload conn info hh hg hp] at h
        simp only [Option.some.injEq, Prod.mk.injEq] at h
        exact h.1.symm
      · rw [publish_notprod st t payload conn info hh hg hp] at h
        simp only [Option.some.injEq, Prod.mk.injEq] at h
        exact h.1.symm
    · rw [publish_nosuch st t payload conn hh (by simpa using hc)] at h
      simp only [Option.some.injEq, Prod.mk.injEq] at h
      exact h.1.symm
  · rw [publish, if_neg hh] at h
    cases h

lemma registryWF_process_message (data : PyDict) (conn : Conn) (st : Registry)
    (st2 : Registry) (out : List (Conn × String)) (hwf : registryWF st = true)
    (h : process_message data conn st = some (st2, out)) :
    registryWF st2 = true := by
  by_cases c1 : (pyEq (pyGetD data "type") (.jstr "register") &&
      pyEq (pyGetD data "mode") (.jstr "producer")) = true
  · rcases Bool.and_eq_true_iff.mp c1 with ⟨h1, h2⟩
    rw [process_message_register_producer data conn st h1 h2] at h
    exact registryWF_register_producer _ _ _ _ _ _ hwf h
  · by_cases c2 : (pyEq (pyGetD data "type") (.jstr "register") &&
        pyEq (pyGetD data "mode") (.jstr "subscriber")) = true
    · rcases Bool.and_eq_true_iff.mp c2 with ⟨h1, h2⟩
      rw [process_message_register_subscriber data conn st h1 h2] at h
      exact registryWF_register_subscriber _ _ _ _ _ hwf h
    · by_cases c3 : (pyEq (pyGetD data "type") (.jstr "withdraw") &&
          pyEq (pyGetD data "mode") (.jstr "subscriber")) = true
      · rcases Bool.and_eq_true_iff.mp c3 with ⟨h1, h2⟩
        rw [process_message_withdraw_subscriber data conn st h1 h2] at h
        exact registryWF_withdraw_subscriber _ _ _ _ _ hwf h
      · by_cases c4 : (pyEq (pyGetD data "type") (.jstr "withdraw") &&
            pyEq (pyGetD data "mode") (.jstr "producer")) = true
        · rcases Bool.and_eq_true_iff.mp c4 with ⟨h1, h2⟩
          rw [process_message_withdraw_producer data conn st h1 h2] at h
          exact registryWF_withdraw_producer _ _ _ _ _ hwf h
        · by_cases c5 : pyEq (pyGetD data "type") (.jstr "message") = true
          · rw [process_message_publish data conn st c5] at h
            exact publish_state_eq _ _ _ _ _ _ h ▸ hwf
          · by_cases c6 : pyEq (pyGetD data "type") (.jstr "status") = true
            · rw [process_message_status data conn st c6] at h
              simp only [Option.some.injEq, Prod.mk.injEq] at h
              exact h.1 ▸ hwf
            · rw [process_message_unknown data conn st (by simpa using c1)
                (by simpa using c2) (by simpa using c3) (by simpa using c4)
                (by simpa using c5) (by simpa using c6)] at h
              simp only [Option.some.injEq, Prod.mk.injEq] at h
              exact h.1 ▸ hwf

lemma register_producer_contains_after (st : Registry) (t cid : JVal) (conn : Conn)
    (st2 : Registry) (out : List (Conn × String))
    (h : register_producer st t cid conn = some (st2, out)) :
    dictContains st2 t = true := by
  by_cases hh : hashable t = true
  · by_cases hc : dictContains st t = true
    · obtain ⟨info, hg⟩ := Option.isSome_iff_exists.mp (dictGet_isSome_of_contains st t hc)
      by_cases hp : info.producer = conn
      · rw [register_producer_already st t cid conn info hh hg hp] at h
        simp only [Option.some.injEq, Prod.mk.injEq] at h
        exact h.1 ▸ hc
      · rw [register_producer_taken st t cid conn info hh hg hp] at h
        simp only [Option.some.injEq, Prod.mk.injEq] at h
        exact h.1 ▸ hc
    · rw [register_producer_created st t cid conn hh (by simpa using hc)] at h
      simp only [Option.some.injEq, Prod.mk.injEq] at h
      exact h.1 ▸ dictContains_dictSet_self st t _ hh
  · rw [register_producer, if_neg hh] at h
    cases h

lemma register_producer_state_of_contains (st : Registry) (t cid : JVal)
    (conn : Conn) (st2 : Registry) (out : List (Conn × String))
    (hc : dictContains st t = true)
    (h : register_producer st t cid conn = some (st2, out)) : st2 = st := by
  by_cases hh : hashable t = true
  · obtain ⟨info, hg⟩ := Option.isSome_iff_exists.mp (dictGet_isSome_of_contains st t hc)
    by_cases hp : info.producer = conn
    · rw [register_producer_already st t cid conn info hh hg hp] at h
      simp only [Option.some.injEq, Prod.mk.injEq] at h
      exact h.1.symm
    · rw [register_producer_taken st t cid conn info hh hg hp] at h
      simp only [Option.some.injEq, Prod.mk.injEq] at h
      exact h.1.symm
  · rw [register_producer, if_neg hh] at h
    cases h

lemma run_register_producers_zero (t : JVal) (calls : List (JVal × Conn)) :
    ∀ (st fin : Registry) (n : Nat), dictContains st t = true →
      run_register_producers t st calls = some (fin, n) → n = 0 := by
  induction calls with
  | nil =>
    intro st fin n _ h
    rw [run_register_producers] at h
    simp only [Option.some.injEq, Prod.mk.injEq] at h
    exact h.2.symm
  | cons call rest ih =>
    intro st fin n hc h
    obtain ⟨cid, conn⟩ := call
    rw [run_register_producers] at h
    cases hrp : register_producer st t cid conn with
    | none => rw [hrp] at h; cases h
    | some p =>
      obtain ⟨st2, out⟩ := p
      rw [hrp] at h
      have hst : st2 = st := register_producer_state_of_contains st t cid conn st2 out hc hrp
      cases hrun : run_register_producers t st2 rest with
      | none => simp only [hrun] at h; cases h
      | some q =>
        obtain ⟨fin2, n2⟩ := q
        simp [hrun, hc] at h
        have hn2 : n2 = 0 := ih st2 fin2 n2 (hst ▸ hc) hrun
        obtain ⟨-, hn⟩ := h
        omega

lemma run_register_producers_le_one (t : JVal) (st : Registry)
    (calls : List (JVal × Conn)) (fin : Registry) (n : Nat)
    (h : run_register_producers t st calls = some (fin, n)) : n ≤ 1 := by
  cases calls with
  | nil =>
    rw [run_register_producers] at h
    simp only [Option.some.injEq, Prod.mk.injEq] at h
    omega
  | cons call rest =>
    obtain ⟨cid, conn⟩ := call
    by_cases hc : dictContains st t = true
    · have := run_register_producers_zero t ((cid, conn) :: rest) st fin n hc h
      omega
    · have hc2 : dictContains st t = false := by simpa using hc
      rw [run_register_producers] at h
      cases hrp : register_producer st t cid conn with
      | none => rw [hrp] at h; cases h
      | some p =>
        obtain ⟨st2, out⟩ := p
        rw [hrp] at h
        have hsta : dictContains st2 t = true :=
          register_producer_contains_after st t cid conn st2 out hrp
        cases hrun : run_register_producers t st2 rest with
        | none => simp only [hrun] at h; cases h
        | some q =>
          obtain ⟨fin2, n2⟩ := q
          simp [hrun, hc2] at h
          have hn2 : n2 = 0 := run_register_producers_zero t rest st2 fin2 n2 hsta hrun
          obtain ⟨-, hn⟩ := h
          omega

lemma removeSub_producer (c : Conn) (info : TopicInfo) :
    (removeSub c info).producer = info.producer := by
  rw [removeSub]
  split <;> rfl

lemma st_pairwise_keys (st : Registry) (hwf : registryWF st = true) :
    st.Pairwise (fun p q => pyEq p.1 q.1 = false ∧ pyEq q.1 p.1 = false) := by
  rcases (registryWF_iff st).mp hwf with ⟨h1, h2, -⟩
  have hpw : st.Pairwise (fun p q => pyEq q.1 p.1 = false) :=
    List.pairwise_map.mp ((keysUnique_iff_pairwise _).mp h2)
  refine hpw.imp_of_mem ?_
  intro p q hp hq hpq
  refine ⟨?_, hpq⟩
  have hhp : hashable p.1 = true :=
    List.all_eq_true.mp h1 p.1 (List.mem_map.mpr ⟨p, hp, rfl⟩)
  rw [pyEq_symm_hashable p.1 q.1 hhp]
  exact hpq

lemma handle_disconnection_eq_filter (st : Registry) (c : Conn)
    (hwf : registryWF st = true) :
    handle_disconnection st c =
      (st.map (fun kv => (kv.1, removeSub c kv.2))).filter
        (fun kv => !(kv.2.producer == c)) := by
  rw [handle_disconnection, foldl_dictDel_eq_filter]
  apply List.filter_congr
  intro kv hkv
  obtain ⟨kv0, hkv0, rfl⟩ := List.mem_map.mp hkv
  rcases (registryWF_iff st).mp hwf with ⟨h1, -, -⟩
  by_cases hp : (kv0.2.producer == c) = true
  · have hmem : kv0.1 ∈ (st.filter (fun kv => kv.2.producer == c)).map (fun kv => kv.1) :=
      List.mem_map.mpr ⟨kv0, List.mem_filter.mpr ⟨hkv0, hp⟩, rfl⟩
    have hhash : hashable kv0.1 = true :=
      List.all_eq_true.mp h1 kv0.1 (List.mem_map.mpr ⟨kv0, hkv0, rfl⟩)
    have hL : ((st.filter (fun kv => kv.2.producer == c)).map (fun kv => kv.1)).all
        (fun t => !(pyEq kv0.1 t)) = false := by
      rw [List.all_eq_false]
      exact ⟨kv0.1, hmem, by simp [pyEq_refl_hashable kv0.1 hhash]⟩
    simp only [removeSub_producer, hp, hL]
    rfl
  · have hpf : (kv0.2.producer == c) = false := by simpa using hp
    have hL : ((st.filter (fun kv => kv.2.producer == c)).map (fun kv => kv.1)).all
        (fun t => !(pyEq kv0.1 t)) = true := by
      rw [List.all_eq_true]
      intro tk htk
      obtain ⟨kv1, hkv1f, rfl⟩ := List.mem_map.mp htk
      obtain ⟨hkv1, hp1⟩ := List.mem_filter.mp hkv1f
      have hne : kv0 ≠ kv1 := by
        intro he
        rw [he] at hpf
        rw [hp1] at hpf
        cases hpf
      have hpair := (st_pairwise_keys st hwf).forall
        (fun p q hpq => ⟨hpq.2, hpq.1⟩) hkv0 hkv1 hne
      simp [hpair.1]
    simp only [removeSub_producer, hpf, hL]
    rfl

lemma handle_disconnection_mem (st : Registry) (c : Conn)
    (hwf : registryWF st = true) (kv : JVal × TopicInfo)
    (hkv : kv ∈ handle_disconnection st c) :
    kv.2.producer ≠ c ∧ c ∉ kv.2.subscribers := by
  rw [handle_disconnection_eq_filter st c hwf] at hkv
  obtain ⟨hmem, hq⟩ := List.mem_filter.mp hkv
  obtain ⟨kv0, hkv0, rfl⟩ := List.mem_map.mp hmem
  rcases (registryWF_iff st).mp hwf with ⟨-, -, h3⟩
  constructor
  · simpa using hq
  · have hnd : kv0.2.subscribers.Nodup :=
      (nodupB_iff_nodup _).mp (List.all_eq_true.mp h3 kv0 hkv0)
    show c ∉ (removeSub c kv0.2).subscribers
    rw [removeSub]
    by_cases hm : kv0.2.subscribers.contains c = true
    · rw [if_pos hm]
      exact not_mem_listRemove_self _ c hnd
    · rw [if_neg hm]
      exact fun hx => hm (List.elem_iff.mpr hx)

lemma handle_disconnection_idem (st : Registry) (c : Conn)
    (hwf : registryWF st = true) :
    handle_disconnection (handle_disconnection st c) c =
      handle_disconnection st c := by
  have hwf2 := registryWF_handle_disconnection st c hwf
  rw [handle_disconnection_eq_filter _ c hwf2]
  have hmapeq : (handle_disconnection st c).map
      (fun kv => (kv.1, removeSub c kv.2)) = handle_disconnection st c := by
    rw [show (fun kv : JVal × TopicInfo => (kv.1, removeSub c kv.2)) =
        (fun kv : JVal × TopicInfo => (kv.1, removeSub c kv.2)) from rfl]
    have : ∀ kv ∈ handle_disconnection st c,
        (kv.1, removeSub c kv.2) = kv := by
      intro kv hkv
      have hsub := (handle_disconnection_mem st c hwf kv hkv).2
      rw [removeSub, if_neg (fun hx => hsub (List.elem_iff.mp hx))]
    calc (handle_disconnection st c).map (fun kv => (kv.1, removeSub c kv.2))
        = (handle_disconnection st c).map id := List.map_congr_left this
      _ = handle_disconnection st c := List.map_id _
  rw [hmapeq]
  rw [List.filter_eq_self.mpr]
  intro kv hkv
  have hprod := (handle_disconnection_mem st c hwf kv hkv).1
  simpa using hprod

lemma pyDictContains_eq_isSome (d : PyDict) (k : String) :
    pyDictContains d k = (pyDictGet d k).isSome := by
  induction d with
  | nil => rfl
  | cons kv rest ih =>
    cases h : (kv.1 == k)
    · simpa [pyDictContains, pyDictGet, List.find?_cons_of_neg, h] using ih
    · simp [pyDictContains, pyDictGet, List.find?_cons_of_pos, h]

lemma pyDictGet_isSome_of_all (d : PyDict) (k : String)
    (hk : k ∈ requiredKeys)
    (hp : requiredKeys.all (fun k2 => pyDictContains d k2) = true) :
    (pyDictGet d k).isSome = true := by
  have := List.all_eq_true.mp hp k hk
  rwa [pyDictContains_eq_isSome] at this

lemma isIn_singleton (v : JVal) (s : String) : isIn v [s] = pyEq v (.jstr s) := by
  simp [isIn]

lemma pyGetD_of_get (d : PyDict) (k : String) (v : JVal)
    (h : pyDictGet d k = some v) : pyGetD d k = v := by
  rw [pyGetD, h]
  rfl

lemma validate_kom_eq (isoOk : JVal → Bool) (data : PyDict) :
    validate_kom isoOk data =
      (requiredKeys.all (fun k => pyDictContains data k) &&
        isoOk (pyGetD data "timestamp") &&
        isIn (pyGetD data "type") ["register", "withdraw", "message", "status"] &&
        (isIn (pyGetD data "mode") ["producer", "subscriber"] ||
          pyEq (pyGetD data "type") (.jstr "status"))) := by
  by_cases hp : requiredKeys.all (fun k => pyDictContains data k) = true
  · obtain ⟨ts, hts⟩ := Option.isSome_iff_exists.mp
      (pyDictGet_isSome_of_all data "timestamp" (by simp [requiredKeys]) hp)
    obtain ⟨ty, hty⟩ := Option.isSome_iff_exists.mp
      (pyDictGet_isSome_of_all data "type" (by simp [requiredKeys]) hp)
    obtain ⟨md, hmd⟩ := Option.isSome_iff_exists.mp
      (pyDictGet_isSome_of_all data "mode" (by simp [requiredKeys]) hp)
    rw [validate_kom, if_pos hp, hts, hty, hmd, pyGetD_of_get data "timestamp" ts hts,
      pyGetD_of_get data "type" ty hty, pyGetD_of_get data "mode" md hmd, hp]
    rw [← isIn_singleton ty "status"]
    cases hio : isoOk ts <;>
      cases h4 : isIn ty ["register", "withdraw", "message", "status"] <;>
        cases h5 : isIn md ["producer", "subscriber"] <;>
          cases h6 : isIn ty ["status"] <;> simp [hio, h4, h5, h6]
  · have hp2 : requiredKeys.all (fun k => pyDictContains data k) = false := by
      simpa using hp
    rw [validate_kom, if_neg hp, hp2]
    simp

lemma pyGetD_cons_pos (kv : String × JVal) (d : PyDict) (k : String)
    (h : (kv.1 == k) = true) : pyGetD (kv :: d) k = kv.2 := by
  simp [pyGetD, pyDictGet, List.find?_cons_of_pos, h]

lemma pyGetD_cons_neg (kv : String × JVal) (d : PyDict) (k : String)
    (h : (kv.1 == k) = false) : pyGetD (kv :: d) k = pyGetD d k := by
  simp [pyGetD, pyDictGet, List.find?_cons_of_neg, h]

lemma pyGetD_pyDictSet_other (d : PyDict) (k k2 : String) (v : JVal)
    (hne : k ≠ k2) : pyGetD (pyDictSet d k v) k2 = pyGetD d k2 := by
  induction d with
  | nil =>
    show pyGetD [(k, v)] k2 = pyGetD [] k2
    rw [pyGetD_cons_neg (k, v) [] k2 (by simp [hne])]
  | cons kv rest ih =>
    by_cases h : (kv.1 == k) = true
    · have hk1 : kv.1 = k := by simpa using h
      have hno : (kv.1 == k2) = false := by simp [hk1, hne]
      rw [pyDictSet, if_pos h, pyGetD_cons_neg (kv.1, v) rest k2 hno,
        pyGetD_cons_neg kv rest k2 hno]
    · have hf : (kv.1 == k) = false := by simpa using h
      rw [pyDictSet, if_neg (by simp [hf])]
      by_cases h2 : (kv.1 == k2) = true
      · rw [pyGetD_cons_pos kv _ k2 h2, pyGetD_cons_pos kv rest k2 h2]
      · have hf2 : (kv.1 == k2) = false := by simpa using h2
        rw [pyGetD_cons_neg kv _ k2 hf2, pyGetD_cons_neg kv rest k2 hf2]
        exact ih

lemma process_message_isSome (data : PyDict) (conn : Conn) (st : Registry)
    (hh : hashable (pyGetD data "topic") = true) :
    (process_message data conn st).isSome = true := by
  by_cases c1 : (pyEq (pyGetD data "type") (.jstr "register") &&
      pyEq (pyGetD data "mode") (.jstr "producer")) = true
  · rcases Bool.and_eq_true_iff.mp c1 with ⟨h1, h2⟩
    rw [process_message_register_producer data conn st h1 h2]
    exact register_producer_isSome _ _ _ _ hh
  · by_cases c2 : (pyEq (pyGetD data "type") (.jstr "register") &&
        pyEq (pyGetD data "mode") (.jstr "subscriber")) = true
    · rcases Bool.and_eq_true_iff.mp c2 with ⟨h1, h2⟩
      rw [process_message_register_subscriber data conn st h1 h2]
      exact register_subscriber_isSome _ _ _ hh
    · by_cases c3 : (pyEq (pyGetD data "type") (.jstr "withdraw") &&
          pyEq (pyGetD data "mode") (.jstr "subscriber")) = true
      · rcases Bool.and_eq_true_iff.mp c3 with ⟨h1, h2⟩
        rw [process_message_withdraw_subscriber data conn st h1 h2]
        exact withdraw_subscriber_isSome _ _ _ hh
      · by_cases c4 : (pyEq (pyGetD data "type") (.jstr "withdraw") &&
            pyEq (pyGetD data "mode") (.jstr "producer")) = true
        · rcases Bool.and_eq_true_iff.mp c4 with ⟨h1, h2⟩
          rw [process_message_withdraw_producer data conn st h1 h2]
          exact withdraw_producer_isSome _ _ _ hh
        · by_cases c5 : pyEq (pyGetD data "type") (.jstr "message") = true
          · rw [process_message_publish data conn st c5]
            exact publish_isSome _ _ _ _ hh
          · by_cases c6 : pyEq (pyGetD data "type") (.jstr "status") = true
            · rw [process_message_status data conn st c6]
              rfl
            · rw [process_message_unknown data conn st (by simpa using c1)
                (by simpa using c2) (by simpa using c3) (by simpa using c4)
                (by simpa using c5) (by simpa using c6)]
              rfl

/-- Claim C1: `register_producer` creates the topic and makes the caller
its producer when the name is absent; when the name is present it answers
already-producer to the owning connection and name-taken to any other,
leaving the registry unchanged in both cases; and over any sequence of
`register_producer` calls on one topic name, at most one call takes the
creation branch. -/
theorem C1_register_producer_at_most_one_created :
    (∀ (st : Registry) (t cid : JVal) (conn : Conn), hashable t = true →
      (dictContains st t = false →
        register_producer st t cid conn =
          some (dictSet st t ⟨conn, cid, []⟩,
            [(conn, "New topic registered: " ++ pyStr t)])) ∧
      (∀ info : TopicInfo, dictGet st t = some info → info.producer = conn →
        register_producer st t cid conn =
          some (st,
            [(conn, "You already are the producer of topic " ++ pyStr t ++ ".")])) ∧
      (∀ info : TopicInfo, dictGet st t = some info → info.producer ≠ conn →
        register_producer st t cid conn =
          some (st, [(conn, "Topic " ++ pyStr t ++ " already exists.")]))) ∧
    (∀ (t : JVal) (st fin : Registry) (calls : List (JVal × Conn)) (n : Nat),
      run_register_producers t st calls = some (fin, n) → n ≤ 1) := by
  constructor
  · intro st t cid conn hh
    exact ⟨fun hc => register_producer_created st t cid conn hh hc,
      fun info hg hp => register_producer_already st t cid conn info hh hg hp,
      fun info hg hp => register_producer_taken st t cid conn info hh hg hp⟩
  · intro t st fin calls n h
    exact run_register_producers_le_one t st calls fin n h

/-- Witness for C1: creating topic `temp` on an empty registry, and a
three-call sequence on the same name that creates exactly once. -/
theorem C1_witness :
    register_producer [] (.jstr "temp") (.jstr "id1") 0 =
      some ([(.jstr "temp", ⟨0, .jstr "id1", []⟩)],
        [(0, "New topic registered: temp")]) ∧
    (1 : Nat) ≤ 1 :=
  ⟨(C1_register_producer_at_most_one_created.1 [] (.jstr "temp") (.jstr "id1") 0
      (by decide)).1 (by decide),
   C1_register_producer_at_most_one_created.2 (.jstr "temp") []
     [(.jstr "temp", ⟨0, .jstr "id1", []⟩)]
     [((.jstr "id1"), 0), ((.jstr "id2"), 1), ((.jstr "id1"), 0)] 1 rfl⟩

/-- Claim C2: when the producer withdraws a topic, the reply is the
withdrawn outcome and the topic disappears with its whole subscriber set
in that same step, so a following `publish` or `register_subscriber` on
the name observes the no-such-topic reply with no state change. -/
theorem C2_withdraw_producer_removes_topic (st : Registry) (t payload : JVal)
    (conn c2 : Conn) (info : TopicInfo) (hh : hashable t = true)
    (hg : dictGet st t = some info) (hp : info.producer = conn) :
    withdraw_producer st t conn =
      some (dictDel st t,
        [(conn, "Topic " ++ pyStr t ++ " has been withdrawn.")]) ∧
    dictContains (dictDel st t) t = false ∧
    publish (dictDel st t) t payload c2 =
      some (dictDel st t, [(c2, noSuchTopicMsg t)]) ∧
    register_subscriber (dictDel st t) t c2 =
      some (dictDel st t, [(c2, noSuchTopicMsg t)]) :=
  ⟨withdraw_producer_removed st t conn info hh hg hp,
   dictContains_dictDel_self st t,
   publish_nosuch _ t payload c2 hh (dictContains_dictDel_self st t),
   register_subscriber_nosuch _ t c2 hh (dictContains_dictDel_self st t)⟩

/-- Witness for C2: producer 3 withdraws `temp`; subscriber 4 then finds
no such topic when publishing or subscribing. -/
theorem C2_witness :
    withdraw_producer [(.jstr "temp", ⟨3, .jstr "p", [4]⟩)] (.jstr "temp") 3 =
      some ([], [(3, "Topic temp has been withdrawn.")]) ∧
    dictContains [] (.jstr "temp") = false ∧
    publish [] (.jstr "temp") .jnull 4 =
      some ([], [(4, noSuchTopicMsg (.jstr "temp"))]) ∧
    register_subscriber [] (.jstr "temp") 4 =
      some ([], [(4, noSuchTopicMsg (.jstr "temp"))]) :=
  C2_withdraw_producer_removes_topic [(.jstr "temp", ⟨3, .jstr "p", [4]⟩)]
    (.jstr "temp") .jnull 3 4 ⟨3, .jstr "p", [4]⟩ (by decide) rfl rfl

/-- Claim C3: every routed registry operation and the disconnection
cleanup preserve the registry invariants — hashable keys, one entry (hence
one producer) per topic name, no duplicated subscriber — and a repeated
`register_subscriber` answers already-subscribed without adding a
duplicate. -/
theorem C3_invariants_preserved :
    (∀ (data : PyDict) (conn : Conn) (st st2 : Registry)
        (out : List (Conn × String)), registryWF st = true →
      process_message data conn st = some (st2, out) →
      registryWF st2 = true) ∧
    (∀ (st : Registry) (conn : Conn), registryWF st = true →
      registryWF (handle_disconnection st conn) = true) ∧
    (∀ (st : Registry) (t : JVal) (conn : Conn) (info : TopicInfo),
      hashable t = true → dictGet st t = some info →
      conn ∈ info.subscribers →
      register_subscriber st t conn =
        some (st,
          [(conn, "You already are a subscriber of topic " ++ pyStr t ++ ".")])) :=
  ⟨fun data conn st st2 out hwf h =>
      registryWF_process_message data conn st st2 out hwf h,
   fun st conn hwf => registryWF_handle_disconnection st conn hwf,
   fun st t conn info hh hg hm =>
      register_subscriber_already st t conn info hh hg hm⟩

/-- Witness for C3: registering a producer on the empty registry keeps it
well formed, and a second subscription by connection 5 is refused. -/
theorem C3_witness :
    registryWF [(.jstr "t", ⟨0, .jnull, []⟩)] = true ∧
    register_subscriber [(.jstr "t", ⟨0, .jnull, [5]⟩)] (.jstr "t") 5 =
      some ([(.jstr "t", ⟨0, .jnull, [5]⟩)],
        [(5, "You already are a subscriber of topic t.")]) :=
  ⟨C3_invariants_preserved.1
      [("type", .jstr "register"), ("mode", .jstr "producer"), ("topic", .jstr "t")]
      0 [] [(.jstr "t", ⟨0, .jnull, []⟩)] [(0, "New topic registered: t")]
      (by decide) rfl,
   C3_invariants_preserved.2.2 [(.jstr "t", ⟨0, .jnull, [5]⟩)] (.jstr "t") 5
      ⟨0, .jnull, [5]⟩ (by decide) rfl (by decide)⟩

/-- Claim C4: `publish` never changes the registry; the producing
connection gets one fan-out frame per current subscriber, any other
connection on an existing topic gets only the not-producer error, and the
topic map is the same before and after in every outcome. -/
theorem C4_publish_pure (st : Registry) (t payload : JVal) (conn : Conn) :
    (∀ (st2 : Registry) (out : List (Conn × String)),
      publish st t payload conn = some (st2, out) → st2 = st) ∧
    (∀ info : TopicInfo, hashable t = true → dictGet st t = some info →
      info.producer = conn →
      publish st t payload conn =
        some (st, info.subscribers.map (fun sub =>
          (sub, dumps (.jobj [("topic", t), ("payload", payload)]))))) ∧
    (∀ info : TopicInfo, hashable t = true → dictGet st t = some info →
      info.producer ≠ conn →
      publish st t payload conn =
        some (st,
          [(conn, "You are not a producer of topic " ++ pyStr t ++ ".")])) :=
  ⟨fun st2 out h => publish_state_eq st t payload conn st2 out h,
   fun info hh hg hp => publish_delivered st t payload conn info hh hg hp,
   fun info hh hg hp => publish_notprod st t payload conn info hh hg hp⟩

/-- Witness for C4: non-producer 9 is refused on `temp` owned by 7 while
the state stays put, and owner 7 fans out to subscriber 1. -/
theorem C4_witness :
    publish [(.jstr "temp", ⟨7, .jstr "p", [1]⟩)] (.jstr "temp") .jnull 9 =
      some ([(.jstr "temp", ⟨7, .jstr "p", [1]⟩)],
        [(9, "You are not a producer of topic temp.")]) ∧
    publish [(.jstr "temp", ⟨7, .jstr "p", [1]⟩)] (.jstr "temp") .jnull 7 =
      some ([(.jstr "temp", ⟨7, .jstr "p", [1]⟩)],
        [(1, dumps (.jobj [("topic", .jstr "temp"), ("payload", .jnull)]))]) :=
  ⟨(C4_publish_pure [(.jstr "temp", ⟨7, .jstr "p", [1]⟩)] (.jstr "temp") .jnull 9).2.2
      ⟨7, .jstr "p", [1]⟩ (by decide) rfl (by decide),
   (C4_publish_pure [(.jstr "temp", ⟨7, .jstr "p", [1]⟩)] (.jstr "temp") .jnull 7).2.1
      ⟨7, .jstr "p", [1]⟩ (by decide) rfl rfl⟩

/-- Claim C5 (amended): the router dispatches `register` and `withdraw` by
the `(type, mode)` pair but `message` and `status` by `type` alone with
the mode ignored — a validated `message`/`subscriber` envelope therefore
invokes `publish`, not the fallback — and exactly the envelopes matching
none of the six typed branches are answered with
"Unknown message type.". -/
theorem C5_routing (data : PyDict) (conn : Conn) (st : Registry) :
    (pyEq (pyGetD data "type") (.jstr "register") = true →
      pyEq (pyGetD data "mode") (.jstr "producer") = true →
      process_message data conn st =
        register_producer st (pyGetD data "topic") (pyGetD data "id") conn) ∧
    (pyEq (pyGetD data "type") (.jstr "register") = true →
      pyEq (pyGetD data "mode") (.jstr "subscriber") = true →
      process_message data conn st =
        register_subscriber st (pyGetD data "topic") conn) ∧
    (pyEq (pyGetD data "type") (.jstr "withdraw") = true →
      pyEq (pyGetD data "mode") (.jstr "subscriber") = true →
      process_message data conn st =
        withdraw_subscriber st (pyGetD data "topic") conn) ∧
    (pyEq (pyGetD data "type") (.jstr "withdraw") = true →
      pyEq (pyGetD data "mode") (.jstr "producer") = true →
      process_message data conn st =
        withdraw_producer st (pyGetD data "topic") conn) ∧
    (pyEq (pyGetD data "type") (.jstr "message") = true →
      process_message data conn st =
        publish st (pyGetD data "topic") (pyGetD data "payload") conn) ∧
    (pyEq (pyGetD data "type") (.jstr "status") = true →
      process_message data conn st = some (st, [(conn, status_reply st data)])) ∧
    ((pyEq (pyGetD data "type") (.jstr "register") &&
        pyEq (pyGetD data "mode") (.jstr "producer")) = false →
      (pyEq (pyGetD data "type") (.jstr "register") &&
        pyEq (pyGetD data "mode") (.jstr "subscriber")) = false →
      (pyEq (pyGetD data "type") (.jstr "withdraw") &&
        pyEq (pyGetD data "mode") (.jstr "subscriber")) = false →
      (pyEq (pyGetD data "type") (.jstr "withdraw") &&
        pyEq (pyGetD data "mode") (.jstr "producer")) = false →
      pyEq (pyGetD data "type") (.jstr "message") = false →
      pyEq (pyGetD data "type") (.jstr "status") = false →
      process_message data conn st =
        some (st, [(conn, "Unknown message type.")])) :=
  ⟨fun h1 h2 => process_message_register_producer data conn st h1 h2,
   fun h1 h2 => process_message_register_subscriber data conn st h1 h2,
   fun h1 h2 => process_message_withdraw_subscriber data conn st h1 h2,
   fun h1 h2 => process_message_withdraw_producer data conn st h1 h2,
   fun h1 => process_message_publish data conn st h1,
   fun h1 => process_message_status data conn st h1,
   fun h1 h2 h3 h4 h5 h6 => process_message_unknown data conn st h1 h2 h3 h4 h5 h6⟩

/-- Counterexample to C5 as stated: a validated envelope with type
`message` and mode `subscriber` does not fall into the fallback row; it
reaches the publish branch and gets the topic-existence reply instead of
"Unknown message type.". -/
theorem C5_counterexample :
    validate_kom (fun _ => true)
      [("type", .jstr "message"), ("id", .jstr "c"), ("topic", .jstr "temp"),
       ("mode", .jstr "subscriber"), ("timestamp", .jstr "2024-01-01T00:00:00"),
       ("payload", .jnull)] = true ∧
    process_message
      [("type", .jstr "message"), ("id", .jstr "c"), ("topic", .jstr "temp"),
       ("mode", .jstr "subscriber"), ("timestamp", .jstr "2024-01-01T00:00:00"),
       ("payload", .jnull)] 0 [] =
      some ([], [(0, noSuchTopicMsg (.jstr "temp"))]) ∧
    noSuchTopicMsg (.jstr "temp") ≠ "Unknown message type." :=
  ⟨rfl, rfl, by decide⟩

/-- Witness for C5: a `message`/`subscriber` envelope routes to `publish`,
and an unknown type gets the fallback reply. -/
theorem C5_witness :
    process_message
      [("type", .jstr "message"), ("mode", .jstr "subscriber"),
       ("topic", .jstr "t")] 4 [] = publish [] (.jstr "t") .jnull 4 ∧
    process_message [("type", .jstr "bogus")] 4 [] =
      some ([], [(4, "Unknown message type.")]) :=
  ⟨(C5_routing [("type", .jstr "message"), ("mode", .jstr "subscriber"),
      ("topic", .jstr "t")] 4 []).2.2.2.2.1 rfl,
   (C5_routing [("type", .jstr "bogus")] 4 []).2.2.2.2.2.2
      (by decide) (by decide) (by decide) (by decide) (by decide) (by decide)⟩

/-- Claim C6: disconnection cleanup removes every topic produced by the
dead connection together with its subscribers, removes that connection
from the subscriber list of every remaining topic, and running it a second
time changes nothing. -/
theorem C6_disconnect_idempotent (st : Registry) (c : Conn)
    (hwf : registryWF st = true) :
    handle_disconnection st c =
      (st.map (fun kv => (kv.1, removeSub c kv.2))).filter
        (fun kv => !(kv.2.producer == c)) ∧
    (∀ kv ∈ handle_disconnection st c,
      kv.2.producer ≠ c ∧ c ∉ kv.2.subscribers) ∧
    handle_disconnection (handle_disconnection st c) c =
      handle_disconnection st c :=
  ⟨handle_disconnection_eq_filter st c hwf,
   fun kv hkv => handle_disconnection_mem st c hwf kv hkv,
   handle_disconnection_idem st c hwf⟩

/-- Witness for C6: connection 7 produced `a` and subscribed to `b`; after
cleanup only `b` remains, without 7, and a second cleanup is a no-op. -/
theorem C6_witness :
    handle_disconnection
      [(.jstr "a", ⟨7, .jstr "id1", [1, 2]⟩), (.jstr "b", ⟨8, .jstr "id2", [7]⟩)] 7 =
      [(.jstr "b", ⟨8, .jstr "id2", []⟩)] ∧
    handle_disconnection (handle_disconnection
      [(.jstr "a", ⟨7, .jstr "id1", [1, 2]⟩), (.jstr "b", ⟨8, .jstr "id2", [7]⟩)] 7) 7 =
      handle_disconnection
      [(.jstr "a", ⟨7, .jstr "id1", [1, 2]⟩), (.jstr "b", ⟨8, .jstr "id2", [7]⟩)] 7 :=
  ⟨(C6_disconnect_idempotent
      [(.jstr "a", ⟨7, .jstr "id1", [1, 2]⟩), (.jstr "b", ⟨8, .jstr "id2", [7]⟩)] 7
      (by decide)).1,
   (C6_disconnect_idempotent
      [(.jstr "a", ⟨7, .jstr "id1", [1, 2]⟩), (.jstr "b", ⟨8, .jstr "id2", [7]⟩)] 7
      (by decide)).2.2⟩

/-- Claim C7: validation succeeds exactly when the six required fields are
present, the timestamp parses (for any parse oracle standing in for the
library call `datetime.fromisoformat`), the type is one of the four known
kinds, and the mode is producer or subscriber unless the type is status;
it is a total boolean function of the envelope, so every violation yields
`false` with no exception and no side effect. -/
theorem C7_validate_iff (isoOk : JVal → Bool) (data : PyDict) :
    validate_kom isoOk data =
      (requiredKeys.all (fun k => pyDictContains data k) &&
        isoOk (pyGetD data "timestamp") &&
        isIn (pyGetD data "type") ["register", "withdraw", "message", "status"] &&
        (isIn (pyGetD data "mode") ["producer", "subscriber"] ||
          pyEq (pyGetD data "type") (.jstr "status"))) :=
  validate_kom_eq isoOk data

/-- Claim C8: a status envelope leaves the registry untouched; the reply
to the requester is the request re-encoded with its payload replaced by
the ordered topic/producer-id snapshot taken in registry order, and its
type field is still "status". -/
theorem C8_status_snapshot (data : PyDict) (conn : Conn) (st : Registry)
    (h : pyGetD data "type" = .jstr "status") :
    process_message data conn st =
      some (st, [(conn,
        dumps (.jobj (pyDictSet data "payload" (.jarr (snapshot_status st)))))]) ∧
    snapshot_status st =
      st.map (fun kv => .jobj [("topic", kv.1), ("id", kv.2.producer_id)]) ∧
    pyGetD (pyDictSet data "payload" (.jarr (snapshot_status st))) "type" =
      .jstr "status" := by
  refine ⟨?_, rfl, ?_⟩
  · have h1 : pyEq (pyGetD data "type") (.jstr "status") = true := by
      rw [h]
      decide
    rw [process_message_status data conn st h1]
    rfl
  · rw [pyGetD_pyDictSet_other data "payload" "type" _ (by decide), h]

/-- Witness for C8, scenario D: with topics `a` (owner id1) and `b`
(owner id2) the status payload is exactly the two-element snapshot in
registry order. -/
theorem C8_witness :
    process_message
      [("type", .jstr "status"), ("id", .jstr "q"), ("topic", .jstr ""),
       ("mode", .jstr ""), ("timestamp", .jstr "2024-01-01T00:00:00"),
       ("payload", .jnull)] 5
      [(.jstr "a", ⟨1, .jstr "id1", []⟩), (.jstr "b", ⟨2, .jstr "id2", []⟩)] =
      some ([(.jstr "a", ⟨1, .jstr "id1", []⟩), (.jstr "b", ⟨2, .jstr "id2", []⟩)],
        [(5, dumps (.jobj (pyDictSet
          [("type", .jstr "status"), ("id", .jstr "q"), ("topic", .jstr ""),
           ("mode", .jstr ""), ("timestamp", .jstr "2024-01-01T00:00:00"),
           ("payload", .jnull)] "payload"
          (.jarr (snapshot_status
            [(.jstr "a", ⟨1, .jstr "id1", []⟩), (.jstr "b", ⟨2, .jstr "id2", []⟩)])))))]) ∧
    snapshot_status
      [(.jstr "a", ⟨1, .jstr "id1", []⟩), (.jstr "b", ⟨2, .jstr "id2", []⟩)] =
      [.jobj [("topic", .jstr "a"), ("id", .jstr "id1")],
       .jobj [("topic", .jstr "b"), ("id", .jstr "id2")]] :=
  ⟨(C8_status_snapshot
      [("type", .jstr "status"), ("id", .jstr "q"), ("topic", .jstr ""),
       ("mode", .jstr ""), ("timestamp", .jstr "2024-01-01T00:00:00"),
       ("payload", .jnull)] 5
      [(.jstr "a", ⟨1, .jstr "id1", []⟩), (.jstr "b", ⟨2, .jstr "id2", []⟩)]
      rfl).1,
   rfl⟩

/-- Claim C9: every conflict outcome — already-producer, name-taken,
already-subscribed, not-subscriber, not-producer and no-such-topic in each
operation that can raise it — enqueues exactly one descriptive text reply
to the sending connection and leaves the registry exactly as it was. -/
theorem C9_conflicts_no_state_change (st : Registry) (t payload cid : JVal)
    (conn : Conn) (hh : hashable t = true) :
    (∀ info : TopicInfo, dictGet st t = some info → info.producer = conn →
      register_producer st t cid conn =
        some (st,
          [(conn, "You already are the producer of topic " ++ pyStr t ++ ".")])) ∧
    (∀ info : TopicInfo, dictGet st t = some info → info.producer ≠ conn →
      register_producer st t cid conn =
        some (st, [(conn, "Topic " ++ pyStr t ++ " already exists.")])) ∧
    (∀ info : TopicInfo, dictGet st t = some info → conn ∈ info.subscribers →
      register_subscriber st t conn =
        some (st,
          [(conn, "You already are a subscriber of topic " ++ pyStr t ++ ".")])) ∧
    (dictContains st t = false →
      register_subscriber st t conn = some (st, [(conn, noSuchTopicMsg t)])) ∧
    (∀ info : TopicInfo, dictGet st t = some info → conn ∉ info.subscribers →
      withdraw_subscriber st t conn =
        some (st,
          [(conn, "You are not a subscriber of topic " ++ pyStr t ++ ".")])) ∧
    (dictContains st t = false →
      withdraw_subscriber st t conn = some (st, [(conn, noSuchTopicMsg t)])) ∧
    (∀ info : TopicInfo, dictGet st t = some info → info.producer ≠ conn →
      withdraw_producer st t conn =
        some (st,
          [(conn, "You are not a producer of topic " ++ pyStr t ++ ".")])) ∧
    (dictContains st t = false →
      withdraw_producer st t conn = some (st, [(conn, noSuchTopicMsg t)])) ∧
    (∀ info : TopicInfo, dictGet st t = some info → info.producer ≠ conn →
      publish st t payload conn =
        some (st,
          [(conn, "You are not a producer of topic " ++ pyStr t ++ ".")])) ∧
    (dictContains st t = false →
      publish st t payload conn = some (st, [(conn, noSuchTopicMsg t)])) :=
  ⟨fun info hg hp => register_producer_already st t cid conn info hh hg hp,
   fun info hg hp => register_producer_taken st t cid conn info hh hg hp,
   fun info hg hm => register_subscriber_already st t conn info hh hg hm,
   fun hc => register_subscriber_nosuch st t conn hh hc,
   fun info hg hm => withdraw_subscriber_notsub st t conn info hh hg hm,
   fun hc => withdraw_subscriber_nosuch st t conn hh hc,
   fun info hg hp => withdraw_producer_notprod st t conn info hh hg hp,
   fun hc => withdraw_producer_nosuch st t conn hh hc,
   fun info hg hp => publish_notprod st t payload conn info hh hg hp,
   fun hc => publish_nosuch st t payload conn hh hc⟩

/-- Witness for C9: on a one-topic registry owned by 3, a name-taken
conflict for 4 and a not-subscriber conflict for 4 each produce one reply
and no state change. -/
theorem C9_witness :
    register_producer [(.jstr "a", ⟨3, .jnull, []⟩)] (.jstr "a") .jnull 4 =
      some ([(.jstr "a", ⟨3, .jnull, []⟩)],
        [(4, "Topic a already exists.")]) ∧
    withdraw_subscriber [(.jstr "a", ⟨3, .jnull, []⟩)] (.jstr "a") 4 =
      some ([(.jstr "a", ⟨3, .jnull, []⟩)],
        [(4, "You are not a subscriber of topic a.")]) :=
  ⟨(C9_conflicts_no_state_change [(.jstr "a", ⟨3, .jnull, []⟩)] (.jstr "a")
      .jnull .jnull 4 (by decide)).2.1 ⟨3, .jnull, []⟩ rfl (by decide),
   (C9_conflicts_no_state_change [(.jstr "a", ⟨3, .jnull, []⟩)] (.jstr "a")
      .jnull .jnull 4 (by decide)).2.2.2.2.1 ⟨3, .jnull, []⟩ rfl (by decide)⟩

/-- Claim C10 (amended): for every decoded key-value envelope whose
`topic` value is hashable — any scalar, or the field absent; everything
except a JSON array or object — `process_message` completes without
raising: each branch reads the optional fields totally and either performs
a registry operation or falls through to the fallback reply. -/
theorem C10_no_exception (data : PyDict) (conn : Conn) (st : Registry)
    (hh : hashable (pyGetD data "topic") = true) :
    (process_message data conn st).isSome = true :=
  process_message_isSome data conn st hh

/-- Counterexample to C10 as stated: an envelope whose `topic` value is a
JSON array is a decoded key-value object, yet `process_message` raises
(`TypeError` on the unhashable dict key at the membership test, modelled
as `none`). -/
theorem C10_counterexample :
    process_message
      [("type", .jstr "register"), ("mode", .jstr "producer"),
       ("topic", .jarr [])] 0 [] = none :=
  rfl

/-- Witness for C10: a register envelope with a string topic is processed
without an exception. -/
theorem C10_witness :
    (process_message
      [("type", .jstr "register"), ("mode", .jstr "producer"),
       ("topic", .jstr "t")] 0 []).isSome = true :=
  C10_no_exception
    [("type", .jstr "register"), ("mode", .jstr "producer"),
     ("topic", .jstr "t")] 0 [] (by decide)
